import Mathlib

/-
Shallow embedding of src/main.py (ivs2): a FastAPI service that persists
processed agent telemetry records and holds an in-memory WebSocket
subscription registry keyed by user id.

Modelling choices:
- Python float fields (x, y, z, latitude, longitude) carry their IEEE-754
  bit pattern as an opaque value; the code performs no arithmetic on them,
  only pass-through, so equality of bit patterns is exact equality.
- datetime values are opaque (a Nat tag); ISO-8601 parsing
  (datetime.fromisoformat) is an external library function and is passed in
  as a parameter fromiso : String -> Option Nat.
- Python exceptions raised by a handler are the .error side of Except PyError;
  the notFound constructor models the HTTP not-found outcome the handlers
  would need for a clean 404 (no handler in src/main.py ever produces it).
- The subscriptions dict (Dict[int, Set[WebSocket]]) is an insertion-ordered
  association list from user id to a duplicate-free list of channel ids;
  WebSocket objects are identified by a Nat id, and liveness of a channel is
  an environment alive : Nat -> Bool consulted by send.
-/

namespace IVS2

/-- Opaque IEEE-754 bit pattern of a Python float; the code only stores and
returns these values, never computes with them. -/
structure FloatBits where
  bits : Nat
deriving DecidableEq, Repr

/-- Python exceptions / failure outcomes a handler can produce. -/
inductive PyError where
  | attributeError
  | keyError
  | valueError
  | notFound
deriving DecidableEq, Repr

/-- src/main.py lines 76-79: pydantic model AccelerometerData. -/
structure AccelerometerData where
  x : FloatBits
  y : FloatBits
  z : FloatBits
deriving DecidableEq, Repr

/-- src/main.py lines 82-84: pydantic model GpsData. -/
structure GpsData where
  latitude : FloatBits
  longitude : FloatBits
deriving DecidableEq, Repr

/-- src/main.py lines 87-91: pydantic model AgentData after validation
(timestamp already parsed to a datetime, modelled as Nat). -/
structure AgentData where
  user_id : Int
  accelerometer : AccelerometerData
  gps : GpsData
  timestamp : Nat
deriving DecidableEq, Repr

/-- src/main.py lines 106-108: pydantic model ProcessedAgentData. -/
structure ProcessedAgentData where
  road_state : String
  agent_data : AgentData
deriving DecidableEq, Repr

/-- src/main.py lines 36-47: the processed_agent_data table row. -/
structure TableRow where
  id : Nat
  road_state : String
  user_id : Int
  x : FloatBits
  y : FloatBits
  z : FloatBits
  longitude : FloatBits
  latitude : FloatBits
  timestamp : Nat
deriving DecidableEq, Repr

/-- src/main.py lines 51-72: response model ProcessedAgentDataInDB. -/
structure ProcessedAgentDataInDB where
  id : Nat
  road_state : String
  user_id : Int
  x : FloatBits
  y : FloatBits
  z : FloatBits
  latitude : FloatBits
  longitude : FloatBits
  timestamp : Nat
deriving DecidableEq, Repr

/-- The database: rows of processed_agent_data plus the next value of the
auto-incrementing integer primary key (Postgres sequences start at 1). -/
structure Store where
  rows : List TableRow
  nextId : Nat
deriving DecidableEq, Repr

def emptyStore : Store := ⟨[], 1⟩

/-- SessionLocal.query(Table).get(id): primary-key lookup, None when absent. -/
def dbGet (s : Store) (id : Nat) : Option TableRow :=
  s.rows.find? (fun r => r.id == id)

/-- src/main.py lines 52-62: the ProcessedAgentDataInDB constructor copies
each column of the row into the response model, positionally
(id, road_state, user_id, x, y, z, latitude, longitude, timestamp). -/
def rowToInDB (t : TableRow) : ProcessedAgentDataInDB :=
  { id := t.id
    road_state := t.road_state
    user_id := t.user_id
    x := t.x
    y := t.y
    z := t.z
    latitude := t.latitude
    longitude := t.longitude
    timestamp := t.timestamp }

/-- src/main.py lines 142-159: the loop body of create_processed_agent_data
builds one Table row from one ProcessedAgentData item; the id is assigned by
the database on commit. -/
def buildRow (id : Nat) (item : ProcessedAgentData) : TableRow :=
  { id := id
    road_state := item.road_state
    user_id := item.agent_data.user_id
    x := item.agent_data.accelerometer.x
    y := item.agent_data.accelerometer.y
    z := item.agent_data.accelerometer.z
    latitude := item.agent_data.gps.latitude
    longitude := item.agent_data.gps.longitude
    timestamp := item.agent_data.timestamp }

/-- SessionLocal.add_all(tables); SessionLocal.commit(): each new row is
appended and receives the next sequential primary key, in input order. -/
def addAll : Store → List ProcessedAgentData → Store
  | s, [] => s
  | s, item :: rest =>
      addAll { rows := s.rows ++ [buildRow s.nextId item], nextId := s.nextId + 1 } rest

/-- src/main.py lines 139-162: POST /processed_agent_data/. The handler
builds the rows and commits them. Its body contains no call to
send_data_to_subscribers (or to any send), so the list of WebSocket
deliveries performed by the request is empty; the second component records
the (channel, row) sends the request performs. -/
def create_processed_agent_data (s : Store) (data : List ProcessedAgentData) :
    Store × List (Nat × TableRow) :=
  (addAll s data, [])

/-- src/main.py lines 165-171: GET /processed_agent_data/id. When the id is
absent, query(...).get returns None and the handler evaluates table.id on
None, raising AttributeError (an unhandled server error, not a 404). -/
def read_processed_agent_data (s : Store) (id : Nat) :
    Except PyError ProcessedAgentDataInDB :=
  match dbGet s id with
  | none => .error .attributeError
  | some t => .ok (rowToInDB t)

/-- src/main.py lines 190-197: the handler overwrites every mutable column
of the fetched row with the values of the request payload. -/
def updateRow (t : TableRow) (d : ProcessedAgentData) : TableRow :=
  { t with
    road_state := d.road_state
    user_id := d.agent_data.user_id
    x := d.agent_data.accelerometer.x
    y := d.agent_data.accelerometer.y
    z := d.agent_data.accelerometer.z
    latitude := d.agent_data.gps.latitude
    longitude := d.agent_data.gps.longitude
    timestamp := d.agent_data.timestamp }

/-- Committing a mutated ORM row replaces the row with that primary key. -/
def replaceRow (rows : List TableRow) (id : Nat) (t2 : TableRow) : List TableRow :=
  rows.map (fun r => if r.id == id then t2 else r)

/-- src/main.py lines 183-201: PUT /processed_agent_data/id. The row is
fetched and dereferenced before any existence check: on an absent id the
field assignment table.road_state = ... raises AttributeError on None. -/
def update_processed_agent_data (s : Store) (id : Nat) (d : ProcessedAgentData) :
    Except PyError (Store × ProcessedAgentDataInDB) :=
  match dbGet s id with
  | none => .error .attributeError
  | some t =>
      let t2 := updateRow t d
      .ok ({ s with rows := replaceRow s.rows id t2 }, rowToInDB t2)

/-- src/main.py lines 204-214: DELETE /processed_agent_data/id. The row is
fetched, the matching rows are deleted and committed, and the response is
built from the previously fetched object; on an absent id the delete removes
nothing and table.id on None raises AttributeError. -/
def delete_processed_agent_data (s : Store) (id : Nat) :
    Except PyError (Store × ProcessedAgentDataInDB) :=
  match dbGet s id with
  | none => .error .attributeError
  | some t =>
      .ok ({ s with rows := s.rows.filter (fun r => !(r.id == id)) }, rowToInDB t)

/-! ## Subscription registry (src/main.py lines 111-133) -/

/-- subscriptions: Dict[int, Set[WebSocket]] as an insertion-ordered
association list; each set is a duplicate-free list of channel ids. -/
abbrev Registry := List (Int × List Nat)

/-- Python dict lookup subscriptions[user_id] (None when the key is absent,
i.e. user_id not in subscriptions). -/
def lookupSubs : Registry → Int → Option (List Nat)
  | [], _ => none
  | (k, v) :: rest, u => if k = u then some v else lookupSubs rest u

/-- Python dict assignment subscriptions[user_id] = cs for an existing key. -/
def setSubs : Registry → Int → List Nat → Registry
  | [], _, _ => []
  | (k, v) :: rest, u, cs =>
      if k = u then (k, cs) :: rest else (k, v) :: setSubs rest u cs

/-- Python set.add: inserts the element unless already present. -/
def insertChannel (cs : List Nat) (c : Nat) : List Nat :=
  if c ∈ cs then cs else cs ++ [c]

/-- src/main.py lines 119-121 (websocket_endpoint, after accept):
if user_id not in subscriptions: subscriptions[user_id] = set();
subscriptions[user_id].add(websocket). -/
def subscribeChannel (R : Registry) (u : Int) (c : Nat) : Registry :=
  let R1 := if (lookupSubs R u).isNone then R ++ [(u, [])] else R
  setSubs R1 u (insertChannel ((lookupSubs R1 u).getD []) c)

/-- src/main.py line 126 (websocket_endpoint, on WebSocketDisconnect):
subscriptions[user_id].remove(websocket). Dict indexing raises KeyError when
user_id is not a key, and set.remove raises KeyError when the element is
absent from the set. -/
def unsubscribeChannel (R : Registry) (u : Int) (c : Nat) :
    Except PyError Registry :=
  match lookupSubs R u with
  | none => .error .keyError
  | some cs =>
      if c ∈ cs then .ok (setSubs R u (cs.erase c)) else .error .keyError

/-- The loop of send_data_to_subscribers: for websocket in subscriptions[u]:
await websocket.send_json(...). Sending on a dead peer raises; there is no
try/except, so the exception propagates, aborting the loop. On success the
result lists the (channel, payload) deliveries in iteration order. -/
def sendLoop {α : Type} (alive : Nat → Bool) (d : α) :
    List Nat → Except Nat (List (Nat × α))
  | [] => .ok []
  | c :: rest =>
      if alive c then (sendLoop alive d rest).map (fun t => (c, d) :: t)
      else .error c

/-- src/main.py lines 130-133: send_data_to_subscribers(user_id, data).
Guarded by if user_id in subscriptions; performs no sends when the key is
absent. The function never mutates the registry. -/
def send_data_to_subscribers {α : Type} (alive : Nat → Bool) (R : Registry)
    (u : Int) (d : α) : Except Nat (List (Nat × α)) :=
  match lookupSubs R u with
  | none => .ok []
  | some cs => sendLoop alive d cs

/-! ## Timestamp validation (src/main.py lines 93-103) -/

/-- The raw JSON value arriving in the timestamp field: a native datetime
value, a text value to be parsed, or any other JSON value (for which
datetime.fromisoformat raises TypeError). -/
inductive TsValue where
  | native (d : Nat)
  | text (s : String)
  | other
deriving DecidableEq, Repr

/-- src/main.py lines 95-103: AgentData.check_timestamp. A datetime instance
passes through; otherwise datetime.fromisoformat is attempted and TypeError
or ValueError becomes a ValueError (a pydantic validation failure). -/
def check_timestamp (fromiso : String → Option Nat) : TsValue → Except PyError Nat
  | .native d => .ok d
  | .text str =>
      match fromiso str with
      | some d => .ok d
      | none => .error .valueError
  | .other => .error .valueError

/-- Modelled from the spec: a timestamp value that is, in the claim's words,
neither a native time value nor valid ISO-8601 text. -/
def specUnparseable (fromiso : String → Option Nat) : TsValue → Bool
  | .native _ => false
  | .text str => (fromiso str).isNone
  | .other => true

/-- AgentData as it arrives on the wire, before timestamp validation. -/
structure RawAgentData where
  user_id : Int
  accelerometer : AccelerometerData
  gps : GpsData
  timestamp : TsValue
deriving DecidableEq, Repr

/-- ProcessedAgentData as it arrives on the wire. -/
structure RawProcessedAgentData where
  road_state : String
  agent_data : RawAgentData
deriving DecidableEq, Repr

/-- Pydantic validation of one ProcessedAgentData body item: the timestamp
validator runs and its failure fails the whole item. -/
def validateItem (fromiso : String → Option Nat) (r : RawProcessedAgentData) :
    Except PyError ProcessedAgentData :=
  (check_timestamp fromiso r.agent_data.timestamp).map (fun d =>
    { road_state := r.road_state
      agent_data :=
        { user_id := r.agent_data.user_id
          accelerometer := r.agent_data.accelerometer
          gps := r.agent_data.gps
          timestamp := d } })

/-- FastAPI validates the whole List[ProcessedAgentData] body; any failing
item fails the request. -/
def validateBatch (fromiso : String → Option Nat) :
    List RawProcessedAgentData → Except PyError (List ProcessedAgentData)
  | [] => .ok []
  | r :: rest => do
      let item ← validateItem fromiso r
      let tl ← validateBatch fromiso rest
      .ok (item :: tl)

/-- The POST /processed_agent_data/ request as a whole: FastAPI runs body
validation before the handler, so a validation error means the handler never
runs and the store is untouched (the .error result carries no store). -/
def createEndpoint (fromiso : String → Option Nat) (s : Store)
    (raw : List RawProcessedAgentData) :
    Except PyError (Store × List (Nat × TableRow)) :=
  (validateBatch fromiso raw).map (create_processed_agent_data s)

/-- The concrete example record of the spec (road_state "pothole",
user_id 42); float bit patterns and the datetime tag are arbitrary. -/
def sampleItem : ProcessedAgentData :=
  { road_state := "pothole"
    agent_data :=
      { user_id := 42
        accelerometer := { x := ⟨1⟩, y := ⟨2⟩, z := ⟨3⟩ }
        gps := { latitude := ⟨50⟩, longitude := ⟨30⟩ }
        timestamp := 0 } }

/-- A wire item whose timestamp field holds a JSON value that is neither a
native time value nor text (e.g. null), so it cannot be parsed. -/
def rawBadItem : RawProcessedAgentData :=
  { road_state := "pothole"
    agent_data :=
      { user_id := 42
        accelerometer := { x := ⟨1⟩, y := ⟨2⟩, z := ⟨3⟩ }
        gps := { latitude := ⟨50⟩, longitude := ⟨30⟩ }
        timestamp := .other } }

/-! ## Helper lemmas -/

theorem find?_append_none {α : Type} (p : α → Bool) (l1 l2 : List α)
    (h : ∀ a ∈ l1, p a = false) :
    List.find? p (l1 ++ l2) = List.find? p l2 := by
  induction l1 with
  | nil => rfl
  | cons a t ih =>
      have ha : p a = false := h a (List.mem_cons_self a t)
      simp only [List.cons_append, List.find?, ha]
      exact ih (fun b hb => h b (List.mem_cons_of_mem a hb))

theorem lookupSubs_setSubs (R : Registry) (u : Int) (cs cs0 : List Nat)
    (h : lookupSubs R u = some cs0) :
    lookupSubs (setSubs R u cs) u = some cs := by
  induction R with
  | nil => simp [lookupSubs] at h
  | cons p rest ih =>
      obtain ⟨k, v⟩ := p
      by_cases hk : k = u
      · simp [setSubs, lookupSubs, hk]
      · simp only [lookupSubs, if_neg hk] at h
        simp only [setSubs, if_neg hk, lookupSubs, if_neg hk]
        exact ih h

theorem setSubs_self (R : Registry) (u : Int) (cs : List Nat)
    (h : lookupSubs R u = some cs) : setSubs R u cs = R := by
  induction R with
  | nil => rfl
  | cons p rest ih =>
      obtain ⟨k, v⟩ := p
      by_cases hk : k = u
      · simp only [lookupSubs, if_pos hk, Option.some.injEq] at h
        simp [setSubs, hk, h]
      · simp only [lookupSubs, if_neg hk] at h
        simp [setSubs, hk, ih h]

theorem lookupSubs_append (R : Registry) (u : Int) (cs : List Nat)
    (h : lookupSubs R u = none) :
    lookupSubs (R ++ [(u, cs)]) u = some cs := by
  induction R with
  | nil => simp [lookupSubs]
  | cons p rest ih =>
      obtain ⟨k, v⟩ := p
      by_cases hk : k = u
      · simp [lookupSubs, hk] at h
      · simp only [lookupSubs, if_neg hk] at h
        simp only [List.cons_append, lookupSubs, if_neg hk]
        exact ih h

theorem lookupSubs_subscribe (R : Registry) (u : Int) (c : Nat) :
    lookupSubs (subscribeChannel R u c) u =
      some (insertChannel ((lookupSubs R u).getD []) c) := by
  cases h : lookupSubs R u with
  | none =>
      have h1 : lookupSubs (R ++ [(u, [])]) u = some [] := lookupSubs_append R u [] h
      have e1 : subscribeChannel R u c = setSubs (R ++ [(u, [])]) u (insertChannel [] c) := by
        simp [subscribeChannel, h, h1]
      rw [e1]
      simp only [Option.getD_none]
      exact lookupSubs_setSubs _ u _ [] h1
  | some cs0 =>
      have e1 : subscribeChannel R u c = setSubs R u (insertChannel cs0 c) := by
        simp [subscribeChannel, h]
      rw [e1]
      simp only [Option.getD_some]
      exact lookupSubs_setSubs R u _ cs0 h

theorem mem_insertChannel_self (cs : List Nat) (c : Nat) :
    c ∈ insertChannel cs c := by
  unfold insertChannel
  by_cases hc : c ∈ cs
  · simp only [if_pos hc]
    exact hc
  · simp [hc]

theorem insertChannel_of_mem {cs : List Nat} {c : Nat} (hc : c ∈ cs) :
    insertChannel cs c = cs := by
  simp [insertChannel, hc]

theorem count_insertChannel (cs : List Nat) (c : Nat)
    (h : cs.count c ≤ 1) : (insertChannel cs c).count c = 1 := by
  unfold insertChannel
  by_cases hc : c ∈ cs
  · have h1 : 0 < cs.count c := List.count_pos_iff.mpr hc
    rw [if_pos hc]
    omega
  · have h0 : cs.count c = 0 := List.count_eq_zero.mpr hc
    rw [if_neg hc, List.count_append, h0]
    simp [List.count_cons]

theorem sendLoop_all_alive {α : Type} (d : α) (cs : List Nat) :
    sendLoop (fun _ => true) d cs = .ok (cs.map (fun ch => (ch, d))) := by
  induction cs with
  | nil => rfl
  | cons a t ih => simp [sendLoop, ih, Except.map]

theorem count_map_pair {α : Type} [DecidableEq α] (d : α) (cs : List Nat) (c : Nat) :
    (cs.map (fun ch => (ch, d))).count (c, d) = cs.count c := by
  induction cs with
  | nil => rfl
  | cons a t ih =>
      simp only [List.map_cons, List.count_cons, ih, beq_iff_eq, Prod.mk.injEq,
        and_true]

theorem check_timestamp_error_iff (fromiso : String → Option Nat) (t : TsValue) :
    (∃ e, check_timestamp fromiso t = .error e) ↔
      specUnparseable fromiso t = true := by
  cases t with
  | native d => simp [check_timestamp, specUnparseable]
  | text str =>
      cases h : fromiso str with
      | none => simp [check_timestamp, specUnparseable, h]
      | some d => simp [check_timestamp, specUnparseable, h]
  | other => simp [check_timestamp, specUnparseable]

theorem validateBatch_error_of (fromiso : String → Option Nat)
    (raw : List RawProcessedAgentData)
    (h : ∃ r ∈ raw, specUnparseable fromiso r.agent_data.timestamp = true) :
    ∃ e, validateBatch fromiso raw = .error e := by
  induction raw with
  | nil => simp at h
  | cons r rest ih =>
      obtain ⟨r0, hr0, hbad⟩ := h
      rcases List.mem_cons.mp hr0 with heq | hmem
      · subst heq
        obtain ⟨e, he⟩ := (check_timestamp_error_iff fromiso _).mpr hbad
        exact ⟨e, by simp [validateBatch, validateItem, he, Except.map, Bind.bind,
          Except.bind]⟩
      · cases hi : validateItem fromiso r with
        | error e =>
            exact ⟨e, by simp [validateBatch, hi, Bind.bind, Except.bind]⟩
        | ok item =>
            obtain ⟨e, he⟩ := ih ⟨r0, hmem, hbad⟩
            exact ⟨e, by simp [validateBatch, hi, he, Bind.bind, Except.bind]⟩

theorem validateBatch_ok_of (fromiso : String → Option Nat)
    (raw : List RawProcessedAgentData)
    (h : ∀ r ∈ raw, specUnparseable fromiso r.agent_data.timestamp = false) :
    ∃ out, validateBatch fromiso raw = .ok out := by
  induction raw with
  | nil => exact ⟨[], rfl⟩
  | cons r rest ih =>
      have hr : specUnparseable fromiso r.agent_data.timestamp = false :=
        h r (List.mem_cons_self r rest)
      have hok : ∃ d, check_timestamp fromiso r.agent_data.timestamp = .ok d := by
        cases ht : check_timestamp fromiso r.agent_data.timestamp with
        | error e =>
            have := (check_timestamp_error_iff fromiso _).mp ⟨e, ht⟩
            rw [hr] at this
            cases this
        | ok d => exact ⟨d, rfl⟩
      obtain ⟨d, hd⟩ := hok
      obtain ⟨out, hout⟩ := ih (fun a ha => h a (List.mem_cons_of_mem r ha))
      refine ⟨{ road_state := r.road_state
                agent_data :=
                  { user_id := r.agent_data.user_id
                    accelerometer := r.agent_data.accelerometer
                    gps := r.agent_data.gps
                    timestamp := d } } :: out, ?_⟩
      simp [validateBatch, validateItem, hd, hout, Except.map, Bind.bind, Except.bind]

/-! ## Claim theorems -/

/-- C1: the creation handler persists the batch but performs no fan-out:
with channel 7 subscribed under user 42 and one record for user 42 in the
batch, the request stores one row yet the list of WebSocket deliveries it
performs is empty, so the subscriber receives zero deliveries rather than
exactly one. -/
theorem create_performs_no_fanout :
    lookupSubs [((42 : Int), [7])] 42 = some [7] ∧
    sampleItem.agent_data.user_id = 42 ∧
    (create_processed_agent_data emptyStore [sampleItem]).1.rows.length = 1 ∧
    (create_processed_agent_data emptyStore [sampleItem]).2 = [] :=
  ⟨rfl, rfl, rfl, rfl⟩

/-- C2: reading an absent id does not yield a not-found failure: the handler
dereferences the None returned by the query and raises AttributeError, a
generic server error distinct from not-found. -/
theorem read_absent_id_attribute_error :
    read_processed_agent_data emptyStore 1 = .error .attributeError ∧
    PyError.attributeError ≠ PyError.notFound :=
  ⟨rfl, by decide⟩

/-- C3: deleting an existing id removes the row and returns its prior state,
but deleting the same id a second time raises AttributeError rather than
yielding a not-found failure. -/
theorem delete_twice_attribute_error :
    (create_processed_agent_data emptyStore [sampleItem]).1 =
      ⟨[buildRow 1 sampleItem], 2⟩ ∧
    delete_processed_agent_data ⟨[buildRow 1 sampleItem], 2⟩ 1 =
      .ok (⟨[], 2⟩, rowToInDB (buildRow 1 sampleItem)) ∧
    delete_processed_agent_data ⟨[], 2⟩ 1 = .error .attributeError ∧
    PyError.attributeError ≠ PyError.notFound :=
  ⟨rfl, rfl, rfl, by decide⟩

/-- C4: updating an absent id raises AttributeError (the handler assigns
fields on the None returned by the query) rather than yielding a not-found
failure. -/
theorem update_absent_id_attribute_error :
    update_processed_agent_data emptyStore 1 sampleItem = .error .attributeError ∧
    PyError.attributeError ≠ PyError.notFound :=
  ⟨rfl, by decide⟩

/-- C6 counterexample: unsubscribing a channel that is not present is not a
no-op: with an empty registry (user id absent) and with the user present but
the channel absent from its set, the code raises KeyError. -/
theorem unsubscribe_absent_keyerror :
    unsubscribeChannel ([] : Registry) 1 5 = .error .keyError ∧
    unsubscribeChannel [((1 : Int), [])] 1 5 = .error .keyError :=
  ⟨rfl, rfl⟩

/-- C6 amended: unsubscribe removes the channel from the user's set when it
is present there; when the user id is not a key of the registry, or the
channel is absent from the user's set, it raises KeyError instead of being a
no-op. -/
theorem unsubscribe_removes_or_keyerror (R : Registry) (u : Int) (c : Nat) :
    (∀ cs, lookupSubs R u = some cs → c ∈ cs →
        unsubscribeChannel R u c = .ok (setSubs R u (cs.erase c)) ∧
        lookupSubs (setSubs R u (cs.erase c)) u = some (cs.erase c)) ∧
    (∀ cs, lookupSubs R u = some cs → c ∉ cs →
        unsubscribeChannel R u c = .error .keyError) ∧
    (lookupSubs R u = none → unsubscribeChannel R u c = .error .keyError) := by
  refine ⟨?_, ?_, ?_⟩
  · intro cs hcs hc
    constructor
    · simp [unsubscribeChannel, hcs, hc]
    · exact lookupSubs_setSubs R u _ cs hcs
  · intro cs hcs hc
    simp [unsubscribeChannel, hcs, hc]
  · intro hn
    simp [unsubscribeChannel, hn]

theorem unsubscribe_removes_or_keyerror_witness :
    unsubscribeChannel [((1 : Int), [5])] 1 5 =
      .ok (setSubs [((1 : Int), [5])] 1 (([5] : List Nat).erase 5)) ∧
    lookupSubs (setSubs [((1 : Int), [5])] 1 (([5] : List Nat).erase 5)) 1 =
      some (([5] : List Nat).erase 5) :=
  (unsubscribe_removes_or_keyerror [((1 : Int), [5])] 1 5).1 [5] rfl (by decide)

/-- C7 counterexample: a send failure is not swallowed at the fan-out call
site. With channel 9 dead and subscribed under user 1, the fan-out raises
(the error propagates to the enclosing request); with channels 9 and 10
registered in that iteration order, the failure on 9 also aborts delivery to
10. The function returns no updated registry: it never unsubscribes the
failing channel. -/
theorem send_failure_not_swallowed :
    send_data_to_subscribers (fun c => c != 9) [((1 : Int), [9])] 1 "rec" =
      .error 9 ∧
    send_data_to_subscribers (fun c => c != 9) [((1 : Int), [9, 10])] 1 "rec" =
      .error 9 :=
  ⟨rfl, rfl⟩

/-- C7 amended: when any subscriber of the user id is dead, the fan-out
raises: send_data_to_subscribers returns an error naming a dead channel, so
the exception propagates to the enclosing record-creation request; the
function performs no registry mutation, so the failing channel remains
registered. -/
theorem sendLoop_error_of_dead {α : Type} (alive : Nat → Bool) (d : α)
    (cs : List Nat) (h : ∃ c ∈ cs, alive c = false) :
    ∃ c, sendLoop alive d cs = .error c ∧ alive c = false := by
  induction cs with
  | nil => simp at h
  | cons a t ih =>
      by_cases ha : alive a = true
      · obtain ⟨c0, hc0, hf⟩ := h
        have hct : c0 ∈ t := by
          rcases List.mem_cons.mp hc0 with heq | hmem
          · rw [heq] at hf
            rw [ha] at hf
            cases hf
          · exact hmem
        obtain ⟨c2, hc2, hac2⟩ := ih ⟨c0, hct, hf⟩
        refine ⟨c2, ?_, hac2⟩
        simp [sendLoop, ha, hc2, Except.map]
      · refine ⟨a, ?_, by simpa using ha⟩
        simp [sendLoop, ha]

theorem send_failure_aborts (alive : Nat → Bool) (R : Registry) (u : Int)
    (d : String) (cs : List Nat) (h1 : lookupSubs R u = some cs)
    (h2 : ∃ c ∈ cs, alive c = false) :
    ∃ c, send_data_to_subscribers alive R u d = .error c ∧ alive c = false := by
  unfold send_data_to_subscribers
  rw [h1]
  exact sendLoop_error_of_dead alive d cs h2

theorem send_failure_aborts_witness :
    ∃ c, send_data_to_subscribers (fun ch => ch != 9) [((1 : Int), [9])] 1 "rec" =
        .error c ∧ (fun ch => ch != 9) c = false :=
  send_failure_aborts (fun ch => ch != 9) [((1 : Int), [9])] 1 "rec" [9] rfl
    ⟨9, by decide, by decide⟩

/-- C10: a fan-out for a user id with no registry entry, or whose subscriber
set is empty, performs zero sends and raises no error, for every liveness
environment. -/
theorem fanout_no_subscribers (alive : Nat → Bool) (R : Registry) (u : Int)
    (d : String) (h : lookupSubs R u = none ∨ lookupSubs R u = some []) :
    send_data_to_subscribers alive R u d = .ok [] := by
  unfold send_data_to_subscribers
  rcases h with h | h
  · rw [h]
  · rw [h]
    rfl

theorem fanout_no_subscribers_witness :
    send_data_to_subscribers (fun _ => true) ([] : Registry) 1 "rec" = .ok [] ∧
    send_data_to_subscribers (fun _ => true) [((2 : Int), [])] 2 "rec" = .ok [] :=
  ⟨fanout_no_subscribers (fun _ => true) [] 1 "rec" (Or.inl rfl),
   fanout_no_subscribers (fun _ => true) [((2 : Int), [])] 2 "rec" (Or.inr rfl)⟩

theorem subscribeChannel_eq_some (R : Registry) (u : Int) (c : Nat)
    (cs : List Nat) (h : lookupSubs R u = some cs) :
    subscribeChannel R u c = setSubs R u (insertChannel cs c) := by
  simp [subscribeChannel, h]

/-- C5: subscribe is idempotent. Under the hypothesis that the channel is
not already duplicated in the user's set (true of every state reachable
through subscribe, since the model mirrors Python set semantics), subscribing
the same channel twice yields the same registry as subscribing once, the
channel occurs exactly once in the subscriber set, and an all-alive fan-out
after the double subscribe delivers the record to that channel exactly once. -/
theorem subscribe_idempotent (R : Registry) (u : Int) (c : Nat) (d : String)
    (h : ((lookupSubs R u).getD []).count c ≤ 1) :
    subscribeChannel (subscribeChannel R u c) u c = subscribeChannel R u c ∧
    ((lookupSubs (subscribeChannel R u c) u).getD []).count c = 1 ∧
    (∃ l, send_data_to_subscribers (fun _ => true)
        (subscribeChannel (subscribeChannel R u c) u c) u d = .ok l ∧
        l.count (c, d) = 1) := by
  have h1 := lookupSubs_subscribe R u c
  have hmem := mem_insertChannel_self ((lookupSubs R u).getD []) c
  obtain ⟨R1, hR1⟩ : ∃ R1, subscribeChannel R u c = R1 := ⟨_, rfl⟩
  rw [hR1] at h1
  rw [hR1]
  have hidem : subscribeChannel R1 u c = R1 := by
    rw [subscribeChannel_eq_some R1 u c _ h1, insertChannel_of_mem hmem]
    exact setSubs_self _ _ _ h1
  have hcount : ((lookupSubs R1 u).getD []).count c = 1 := by
    rw [h1]
    simp only [Option.getD_some]
    exact count_insertChannel _ _ h
  refine ⟨hidem, hcount,
    (insertChannel ((lookupSubs R u).getD []) c).map (fun ch => (ch, d)), ?_, ?_⟩
  · rw [hidem]
    unfold send_data_to_subscribers
    rw [h1]
    exact sendLoop_all_alive d _
  · rw [count_map_pair]
    exact count_insertChannel _ _ h

theorem subscribe_idempotent_witness :
    subscribeChannel (subscribeChannel ([] : Registry) 1 5) 1 5 =
      subscribeChannel ([] : Registry) 1 5 ∧
    ((lookupSubs (subscribeChannel ([] : Registry) 1 5) 1).getD []).count 5 = 1 ∧
    (∃ l, send_data_to_subscribers (fun _ => true)
        (subscribeChannel (subscribeChannel ([] : Registry) 1 5) 1 5) 1 "x" =
          .ok l ∧
        l.count (5, "x") = 1) :=
  subscribe_idempotent [] 1 5 "x" (by decide)

/-- C8: round-trip. For any store whose row ids are all below the next
sequence value, creating one valid record and reading it back by its
assigned id returns every field (id, road_state, user_id, x, y, z, latitude,
longitude, timestamp) exactly equal to the input, bit-for-bit on the float
fields. -/
theorem create_then_read_roundtrip (s : Store) (item : ProcessedAgentData)
    (h : ∀ r ∈ s.rows, r.id < s.nextId) :
    read_processed_agent_data (create_processed_agent_data s [item]).1 s.nextId =
      .ok { id := s.nextId
            road_state := item.road_state
            user_id := item.agent_data.user_id
            x := item.agent_data.accelerometer.x
            y := item.agent_data.accelerometer.y
            z := item.agent_data.accelerometer.z
            latitude := item.agent_data.gps.latitude
            longitude := item.agent_data.gps.longitude
            timestamp := item.agent_data.timestamp } := by
  have hfalse : ∀ r ∈ s.rows, (r.id == s.nextId) = false := by
    intro r hr
    exact beq_eq_false_iff_ne.mpr (Nat.ne_of_lt (h r hr))
  have hcreate : (create_processed_agent_data s [item]).1 =
      ⟨s.rows ++ [buildRow s.nextId item], s.nextId + 1⟩ := by
    simp [create_processed_agent_data, addAll]
  rw [hcreate]
  unfold read_processed_agent_data dbGet
  simp only
  rw [find?_append_none _ _ _ hfalse]
  simp [List.find?, rowToInDB, buildRow]

theorem create_then_read_roundtrip_witness :
    read_processed_agent_data
        (create_processed_agent_data emptyStore [sampleItem]).1 1 =
      .ok { id := 1
            road_state := "pothole"
            user_id := 42
            x := ⟨1⟩
            y := ⟨2⟩
            z := ⟨3⟩
            latitude := ⟨50⟩
            longitude := ⟨30⟩
            timestamp := 0 } :=
  create_then_read_roundtrip emptyStore sampleItem
    (by intro r hr; simp [emptyStore] at hr)

/-- C9: if any record of the batch carries an unparseable timestamp (neither
a native time value nor text accepted by the ISO-8601 parser), body
validation fails the request with a validation error and the handler never
runs, so no record of the batch is persisted (the error result carries no
store); if every timestamp is parseable the request succeeds. -/
theorem create_rejects_bad_timestamp (fromiso : String → Option Nat) (s : Store)
    (raw : List RawProcessedAgentData) :
    ((∃ r ∈ raw, specUnparseable fromiso r.agent_data.timestamp = true) →
      ∃ e, createEndpoint fromiso s raw = .error e) ∧
    ((∀ r ∈ raw, specUnparseable fromiso r.agent_data.timestamp = false) →
      ∃ out, createEndpoint fromiso s raw = .ok out) := by
  constructor
  · intro hbad
    obtain ⟨e, he⟩ := validateBatch_error_of fromiso raw hbad
    exact ⟨e, by simp [createEndpoint, he, Except.map]⟩
  · intro hgood
    obtain ⟨out, hout⟩ := validateBatch_ok_of fromiso raw hgood
    exact ⟨create_processed_agent_data s out,
      by simp [createEndpoint, hout, Except.map]⟩

theorem create_rejects_bad_timestamp_witness :
    ∃ e, createEndpoint (fun _ => none) emptyStore [rawBadItem] = .error e :=
  (create_rejects_bad_timestamp (fun _ => none) emptyStore [rawBadItem]).1
    ⟨rawBadItem, by simp, rfl⟩

end IVS2
